import Mathlib

/-!
Verification of the alarm orchestration core of the edge-api repository.

The development shallow-embeds the Python sources:
  * `app/schemas/sensor.py`   — `AlarmMessage`, `AlarmMessage.from_dict`,
    `AlarmMessage.list_from_payload`
  * `app/alarms/base.py`      — `SensorInfo`, `SensorInfo.is_current_time_restricted`
  * `app/alarms/la6_poe.py`   — `LA6PoeAlarm._build_command_array`
  * `app/alarms/aepel_speaker.py` — `EventAlertState`, `AlertManager.add_event`,
    `AEPELSpeakerAlarm.stop`, `AEPELSpeakerAlarm._remove_speaker_info`
  * `app/workers/alarm_service.py` — `AlarmService._on_alarm_updated`,
    `AlarmService._timer_loop` (one tick), `AlarmService._send_command`,
    `AlarmService._stop_command`, `AlarmService._get_sensor_and_type`

Conventions of the embedding:
  * Python `dict` (insertion ordered) is modelled as an association list
    `List (String × α)` with update-in-place / append-on-new-key semantics.
  * `datetime` values are modelled as integer timestamps in milliseconds;
    `datetime.min` becomes the constant `datetimeMin`.  `datetime.now()` is an
    ambient effect, so every function reading the clock takes the current
    instant (or the current minutes-since-midnight) as an explicit argument.
  * Device I/O and the log lines that the verified claims mention are
    modelled as an explicit effect trace (`Effect`, `SpeakerEvent`); remaining
    log lines are not part of the trace.
  * Python exceptions escaping a function are modelled with `Except String`.
-/

/-- Structure `AlarmMessage` from `app/schemas/sensor.py`.  `duration` and
`regen_interval` arrive in seconds and are rescaled to milliseconds by the
dispatch handler; Python integers are unbounded, hence `Int`. -/
structure AlarmMessage where
  id : String := ""
  type_id : String := ""
  alarm_type : String := ""
  alarm_value : String := ""
  duration : Int := 1
  regen_interval : Int := 0
  priority : Int := 0
  on_off : Option Int := none
deriving Repr, DecidableEq

/-- Structure `SensorInfo` from `app/alarms/base.py`. -/
structure SensorInfo where
  id : String
  name : String
  type_id : String
  ip : String
  port : Int
  max_time : Int := 120
  pause_time : Int := 2
  is_time_restricted : Bool := false
  time_restricted_start : Int := 0
  time_restricted_end : Int := 0
deriving Repr, DecidableEq

/-- Method `SensorInfo.is_current_time_restricted` from `app/alarms/base.py`.
The argument `current_minutes` stands for `now.hour * 60 + now.minute`. -/
def SensorInfo.is_current_time_restricted
    (s : SensorInfo) (current_minutes : Int) : Bool :=
  if ¬ s.is_time_restricted then
    false
  else if s.time_restricted_start = s.time_restricted_end then
    false
  else if s.time_restricted_start < s.time_restricted_end then
    decide (s.time_restricted_start ≤ current_minutes ∧
      current_minutes ≤ s.time_restricted_end)
  else
    decide (current_minutes ≥ s.time_restricted_start ∨
      current_minutes ≤ s.time_restricted_end)

/-- A concrete sensor whose restriction window wraps past midnight,
22:00 (1320) to 06:00 (360). -/
def overnightSensor : SensorInfo :=
  { id := "s-night", name := "night", type_id := "t1", ip := "10.0.0.1",
    port := 80, is_time_restricted := true,
    time_restricted_start := 1320, time_restricted_end := 360 }

/-- C7: with the restriction flag enabled, `is_current_time_restricted`
returns false when start = end; for a wrapping window (start > end) it is
false exactly when the time is strictly between end and start; for
start < end it is true exactly inside the window, boundaries included; and
for the 22:00–06:00 window, 23:00 is restricted while 07:00 is not. -/
theorem is_current_time_restricted_spec
    (s : SensorInfo) (cur : Int) (h : s.is_time_restricted = true) :
    (s.time_restricted_start = s.time_restricted_end →
      s.is_current_time_restricted cur = false) ∧
    (s.time_restricted_start > s.time_restricted_end →
      (s.is_current_time_restricted cur = false ↔
        s.time_restricted_end < cur ∧ cur < s.time_restricted_start)) ∧
    (s.time_restricted_start < s.time_restricted_end →
      (s.is_current_time_restricted cur = true ↔
        s.time_restricted_start ≤ cur ∧ cur ≤ s.time_restricted_end)) ∧
    overnightSensor.is_current_time_restricted 1380 = true ∧
    overnightSensor.is_current_time_restricted 420 = false := by
  refine ⟨?_, ?_, ?_, by decide, by decide⟩
  · intro heq
    simp [SensorInfo.is_current_time_restricted, h, heq]
  · intro hgt
    have hne : s.time_restricted_start ≠ s.time_restricted_end := ne_of_gt hgt
    have hnlt : ¬ s.time_restricted_start < s.time_restricted_end :=
      not_lt_of_gt hgt
    simp only [SensorInfo.is_current_time_restricted, h, Bool.not_true,
      not_true_eq_false, if_false, if_neg hne, if_neg hnlt,
      decide_eq_false_iff_not, not_or, not_le, ge_iff_le]
    omega
  · intro hlt
    have hne : s.time_restricted_start ≠ s.time_restricted_end := ne_of_lt hlt
    simp [SensorInfo.is_current_time_restricted, h, hne, hlt]

/-- C7 witness: instantiation at the overnight sensor and time 1380. -/
theorem is_current_time_restricted_spec_witness :
    overnightSensor.is_time_restricted = true ∧
    (overnightSensor.time_restricted_start = overnightSensor.time_restricted_end →
      overnightSensor.is_current_time_restricted 1380 = false) ∧
    (overnightSensor.time_restricted_start > overnightSensor.time_restricted_end →
      (overnightSensor.is_current_time_restricted 1380 = false ↔
        overnightSensor.time_restricted_end < 1380 ∧
          1380 < overnightSensor.time_restricted_start)) := by
  refine ⟨by decide, ?_, ?_⟩
  · exact (is_current_time_restricted_spec overnightSensor 1380 (by decide)).1
  · exact (is_current_time_restricted_spec overnightSensor 1380 (by decide)).2.1

/-- C10: with the restriction flag disabled the function returns false for
every current time and all window fields. -/
theorem not_time_restricted_of_flag_false
    (s : SensorInfo) (cur : Int) (h : s.is_time_restricted = false) :
    s.is_current_time_restricted cur = false := by
  simp [SensorInfo.is_current_time_restricted, h]

/-- C10 witness: a sensor with the flag off and a nonempty window is never
restricted. -/
theorem not_time_restricted_of_flag_false_witness :
    ({ overnightSensor with is_time_restricted := false
       } : SensorInfo).is_time_restricted = false ∧
    ({ overnightSensor with is_time_restricted := false
       } : SensorInfo).is_current_time_restricted 1380 = false :=
  ⟨by decide, not_time_restricted_of_flag_false _ 1380 (by decide)⟩

/-! ### LA6-POE driver (`app/alarms/la6_poe.py`) -/

/-- Helper for Python `int(s)`: digits of a non-empty decimal literal. -/
def decDigitsToNat : List Char → Option Nat
  | [] => none
  | cs =>
    cs.foldl
      (fun acc c =>
        match acc with
        | none => none
        | some n => if c.isDigit then some (n * 10 + (c.toNat - 48)) else none)
      (some 0)

/-- Python `int(s)` on a string: optional sign followed by decimal digits,
`none` when the conversion raises `ValueError`. -/
def pyIntOfString (s : String) : Option Int :=
  match s.data with
  | '-' :: rest => (decDigitsToNat rest).map (fun n => -(n : Int))
  | '+' :: rest => (decDigitsToNat rest).map (fun n => (n : Int))
  | cs => (decDigitsToNat cs).map (fun n => (n : Int))

/-- Python `s.upper()` (ASCII case mapping, which covers every string the
drivers compare against). -/
def pyUpper (s : String) : String := String.mk (s.data.map Char.toUpper)

/-- Python `s.startswith(pre)`. -/
def pyStartsWith (s pre : String) : Bool := List.isPrefixOf pre.data s.data

/-- Helper for Python `s.replace(pat, repl)`: replace every non-overlapping
occurrence, scanning left to right (non-empty `pat`). -/
def pyReplaceAux (pat repl : List Char) : List Char → List Char
  | [] => []
  | c :: rest =>
    if List.isPrefixOf pat (c :: rest) then
      repl ++ pyReplaceAux pat repl (rest.drop (pat.length - 1))
    else
      c :: pyReplaceAux pat repl rest
termination_by l => l.length
decreasing_by
  · simp only [List.length_cons]
    have := List.length_drop (pat.length - 1) rest
    omega
  · simp

/-- Python `s.replace(pat, repl)`. -/
def pyReplace (s pat repl : String) : String :=
  String.mk (pyReplaceAux pat.data repl.data s.data)

namespace LA6PoeAlarm

/-- Constant `LA6PoeAlarm.DEFAULT_COMMANDS`: all LEDs in the off-state value
`"4"`, no blinking, no buzzer. -/
def DEFAULT_COMMANDS : List String := ["4", "4", "4", "4", "4", "0", "0"]

/-- One iteration of the `for alarm in alarms` loop of
`LA6PoeAlarm._build_command_array`: field-by-field mutation of the 7-element
command array. -/
def build_command_step (cmd : List String) (alarm : AlarmMessage) : List String :=
  let alarm_type := pyUpper alarm.alarm_type
  let alarm_value := pyUpper alarm.alarm_value
  if alarm_type = "LED" then
    if alarm_value = "RED" then
      ((((((cmd.set 0 "1").set 1 "1").set 2 "1").set 3 "1").set 4 "1").set 5
          "0").set 6 "1"
    else if alarm_value = "YELLOW" then
      ((((((cmd.set 0 "2").set 1 "2").set 2 "2").set 3 "2").set 4 "2").set 5
          "0").set 6 "9"
    else if alarm_value = "GREEN" then
      (((((cmd.set 0 "4").set 1 "4").set 2 "4").set 3 "4").set 4 "4").set 5 "0"
    else if alarm_value = "NONE" then
      (((((cmd.set 0 "1").set 1 "1").set 2 "1").set 3 "1").set 4 "1").set 5 "0"
    else cmd
  else if alarm_type = "BUZZER" then
    if alarm_value = "OFF" then
      cmd.set 6 "0"
    else if alarm_value = "ON" then
      if cmd.getD 6 "" = "0" then cmd.set 6 "1" else cmd
    else if pyStartsWith alarm_value "PATTERN" then
      match pyIntOfString (pyReplace alarm_value "PATTERN" "") with
      | some pat => cmd.set 6 (toString (max 1 (min pat 3)))
      | none => cmd.set 6 "1"
    else cmd
  else cmd

/-- Method `LA6PoeAlarm._build_command_array`: fold the per-alarm mutation
over the default command array. -/
def build_command_array (alarms : List AlarmMessage) : List String :=
  alarms.foldl build_command_step DEFAULT_COMMANDS

end LA6PoeAlarm

/-- A concrete `LED=GREEN` alarm message. -/
def greenAlarm : AlarmMessage :=
  { id := "s1", type_id := "t1", alarm_type := "LED", alarm_value := "GREEN",
    duration := 5, regen_interval := 1, priority := 1 }

/-- A concrete `LED=NONE` alarm message. -/
def noneAlarm : AlarmMessage :=
  { greenAlarm with alarm_value := "NONE" }

/-- C6 counterexample: contrary to the claim, `LED=GREEN` does not set the
five LED fields to `"1"` and `LED=NONE` does not set them to `"4"`. -/
theorem la6_green_none_claim_false :
    ¬ ((LA6PoeAlarm.build_command_array [greenAlarm]).take 5 =
        ["1", "1", "1", "1", "1"]) ∧
    ¬ ((LA6PoeAlarm.build_command_array [noneAlarm]).take 5 =
        ["4", "4", "4", "4", "4"]) := by
  constructor <;> decide

/-- C6 (amended): in the command-array construction, `LED=GREEN` sets the
five LED fields to `"4"` with blink `"0"` (leaving the buzzer field alone)
and `LED=NONE` sets them to `"1"` with blink `"0"`; starting from the
default array this yields `["4","4","4","4","4","0","0"]` and
`["1","1","1","1","1","0","0"]` respectively. -/
theorem la6_green_none_amended (c0 c1 c2 c3 c4 c5 c6 : String)
    (g n : AlarmMessage)
    (hg1 : pyUpper g.alarm_type = "LED") (hg2 : pyUpper g.alarm_value = "GREEN")
    (hn1 : pyUpper n.alarm_type = "LED") (hn2 : pyUpper n.alarm_value = "NONE") :
    LA6PoeAlarm.build_command_step [c0, c1, c2, c3, c4, c5, c6] g =
      ["4", "4", "4", "4", "4", "0", c6] ∧
    LA6PoeAlarm.build_command_step [c0, c1, c2, c3, c4, c5, c6] n =
      ["1", "1", "1", "1", "1", "0", c6] ∧
    LA6PoeAlarm.build_command_array [g] = ["4", "4", "4", "4", "4", "0", "0"] ∧
    LA6PoeAlarm.build_command_array [n] = ["1", "1", "1", "1", "1", "0", "0"] := by
  refine ⟨?_, ?_, ?_, ?_⟩ <;>
    simp [LA6PoeAlarm.build_command_step, LA6PoeAlarm.build_command_array,
      LA6PoeAlarm.DEFAULT_COMMANDS, hg1, hg2, hn1, hn2, List.set]

/-- C6 witness: the amended theorem applied to the concrete green and none
alarms over the default array. -/
theorem la6_green_none_amended_witness :
    pyUpper greenAlarm.alarm_type = "LED" ∧
    pyUpper greenAlarm.alarm_value = "GREEN" ∧
    LA6PoeAlarm.build_command_array [greenAlarm] =
      ["4", "4", "4", "4", "4", "0", "0"] ∧
    LA6PoeAlarm.build_command_array [noneAlarm] =
      ["1", "1", "1", "1", "1", "0", "0"] := by
  refine ⟨by decide, by decide, ?_, ?_⟩
  · exact (la6_green_none_amended "4" "4" "4" "4" "4" "0" "0" greenAlarm
      noneAlarm (by decide) (by decide) (by decide) (by decide)).2.2.1
  · exact (la6_green_none_amended "4" "4" "4" "4" "4" "0" "0" greenAlarm
      noneAlarm (by decide) (by decide) (by decide) (by decide)).2.2.2

/-! ### Alarm dispatch service (`app/workers/alarm_service.py`)

Python `dict` (insertion ordered, unique keys) is modelled as an
association list.  `aset` updates the first entry with the key in place and
appends a fresh key at the end, `aerase` drops the entry — exactly the
ordering behaviour of CPython dicts. -/

/-- Dictionary lookup, `d.get(key)`. -/
def alookup {α : Type} : List (String × α) → String → Option α
  | [], _ => none
  | (k, v) :: rest, key => if k = key then some v else alookup rest key

/-- Dictionary assignment, `d[key] = v`. -/
def aset {α : Type} : List (String × α) → String → α → List (String × α)
  | [], key, v => [(key, v)]
  | (k, w) :: rest, key, v =>
    if k = key then (k, v) :: rest else (k, w) :: aset rest key v

/-- Dictionary removal, `d.pop(key, None)`. -/
def aerase {α : Type} : List (String × α) → String → List (String × α)
  | [], _ => []
  | (k, w) :: rest, key => if k = key then rest else (k, w) :: aerase rest key

/-- First-occurrence deduplication; models iterating a Python `set` built
from a list (the set iteration order itself is unspecified, but every claim
below is per-group and independent of the order across groups). -/
def dedupFirstAux (seen : List String) : List String → List String
  | [] => []
  | x :: rest =>
    if x ∈ seen then dedupFirstAux seen rest
    else x :: dedupFirstAux (x :: seen) rest

/-- First-occurrence deduplication of a list of strings. -/
def dedupFirst (l : List String) : List String := dedupFirstAux [] l

/-- Replace the first element satisfying `p` (the object `next(...)` found,
mutated in place in Python). -/
def replaceFirst {α : Type} (p : α → Bool) (v : α) : List α → List α
  | [] => []
  | x :: rest => if p x then v :: rest else x :: replaceFirst p v rest

/-- Observable actions of the dispatch service: driver calls (`module.send`
and `module.stop`, tagged by the module's type name) and the log lines of
the two early-return branches of `_on_alarm_updated`. -/
inductive Effect
  | send (type_name : String) (sensor : SensorInfo) (alarms : List AlarmMessage)
  | stop (type_name : String) (sensor : SensorInfo) (alarm : AlarmMessage)
  | logError (msg : String)
  | logWarning (msg : String)
deriving Repr, DecidableEq

/-- Predicate selecting driver `send` calls from an effect trace. -/
def Effect.isSend : Effect → Bool
  | .send _ _ _ => true
  | _ => false

/-- State of `AlarmService`: the active alarm dict plus the sensor cache
(`_sensors`, `_sensor_types`) and the registered driver modules (the keys of
`load_alarm_modules()`). -/
structure AlarmService where
  active_sensors : List (String × List AlarmMessage)
  sensors : List (String × SensorInfo)
  sensor_types : List (String × String)
  modules : List String
deriving Repr, DecidableEq

/-- Timer interval `AlarmService.INTERVAL_MS`. -/
def AlarmService.INTERVAL_MS : Int := 500

/-- Method `AlarmService._get_sensor_and_type`: cache lookup of the sensor
and its type name, `none` when either is unregistered (logged, no-op). -/
def AlarmService.get_sensor_and_type (svc : AlarmService)
    (sensor_id : String) : Option (SensorInfo × String) :=
  match alookup svc.sensors sensor_id with
  | none => none
  | some sensor_info =>
    match alookup svc.sensor_types sensor_info.type_id with
    | none => none
    | some type_name => some (sensor_info, type_name)

/-- Method `AlarmService._send_command`: resolve the sensor and module and
issue `module.send`; unknown sensor, type or module is logged and dropped. -/
def AlarmService.send_command (svc : AlarmService) (sensor_id : String)
    (alarms : List AlarmMessage) : List Effect :=
  match svc.get_sensor_and_type sensor_id with
  | none => []
  | some (sensor_info, type_name) =>
    if type_name ∈ svc.modules then [Effect.send type_name sensor_info alarms]
    else []

/-- Method `AlarmService._stop_command`: resolve the sensor and module and
issue `module.stop`; unknown sensor, type or module is logged and dropped. -/
def AlarmService.stop_command (svc : AlarmService) (sensor_id : String)
    (alarm : AlarmMessage) : List Effect :=
  match svc.get_sensor_and_type sensor_id with
  | none => []
  | some (sensor_info, type_name) =>
    if type_name ∈ svc.modules then [Effect.stop type_name sensor_info alarm]
    else []

/-- Key match of the `next(...)` search in `_on_alarm_updated`: same alarm
category and same type id. -/
def sameKey (alarm : AlarmMessage) (x : AlarmMessage) : Bool :=
  x.alarm_type == alarm.alarm_type && x.type_id == alarm.type_id

/-- Body of the `for alarm in selected` loop of `_on_alarm_updated`: merge
one incoming message into the sensor's active list.  Returns the new active
dict and the effects (a driver `stop` when an entry with the same key holds
a different value). -/
def mergeAlarm (svc : AlarmService) (sensor_id : String)
    (alarm : AlarmMessage) : List (String × List AlarmMessage) × List Effect :=
  let alarms := (alookup svc.active_sensors sensor_id).getD []
  match alarms.find? (sameKey alarm) with
  | none => (aset svc.active_sensors sensor_id (alarms ++ [alarm]), [])
  | some old_alarm =>
    let effs :=
      if old_alarm.alarm_value ≠ alarm.alarm_value then
        svc.stop_command sensor_id old_alarm
      else []
    let updated := { old_alarm with
      alarm_value := alarm.alarm_value,
      duration := alarm.duration,
      regen_interval := alarm.regen_interval,
      priority := alarm.priority }
    (aset svc.active_sensors sensor_id (replaceFirst (sameKey alarm) updated alarms),
      effs)

/-- The `for alarm in selected` loop: fold `mergeAlarm` over the group's
messages, threading the active dict and accumulating effects. -/
def processSelected (svc : AlarmService) (sensor_id : String)
    (selected : List AlarmMessage) : AlarmService × List Effect :=
  selected.foldl
    (fun acc alarm =>
      let r := mergeAlarm acc.1 sensor_id alarm
      ({ acc.1 with active_sensors := r.1 }, acc.2 ++ r.2))
    (svc, [])

/-- One non-empty `(type_id, sensor_id)` group of `_on_alarm_updated`: merge
every selected message, then issue `self._send_command(sensor_id, selected)`
— the argument is the batch's `selected` list itself. -/
def processGroup (svc : AlarmService) (sensor_id : String)
    (selected : List AlarmMessage) : AlarmService × List Effect :=
  let r := processSelected svc sensor_id selected
  (r.1, r.2 ++ r.1.send_command sensor_id selected)

/-- Seconds-to-milliseconds rescaling applied to every parsed message
(`alarm.duration *= 1000; alarm.regen_interval *= 1000`). -/
def msConvert (a : AlarmMessage) : AlarmMessage :=
  { a with duration := a.duration * 1000, regen_interval := a.regen_interval * 1000 }

/-- The `selected` list of a `(sensor_id, type_id)` group. -/
def selGroup (msgs : List AlarmMessage) (sensor_id type_id : String) :
    List AlarmMessage :=
  msgs.filter (fun a => a.id == sensor_id && a.type_id == type_id)

/-- Body of the `for sensor_id in sensor_ids` loop of `_on_alarm_updated`:
skip an empty group, otherwise run the group and collect its effects. -/
def groupStep (msgs : List AlarmMessage) (type_id : String)
    (acc : AlarmService × List Effect) (sensor_id : String) :
    AlarmService × List Effect :=
  let selected := selGroup msgs sensor_id type_id
  if selected.isEmpty then acc
  else
    let r := processGroup acc.1 sensor_id selected
    (r.1, acc.2 ++ r.2)

/-- Body of the `for type_id in type_ids` loop: run every sensor group of
this type id. -/
def typeStep (msgs : List AlarmMessage) (sensor_ids : List String)
    (acc : AlarmService × List Effect) (type_id : String) :
    AlarmService × List Effect :=
  sensor_ids.foldl (groupStep msgs type_id) acc

/-- Dispatch part of `AlarmService._on_alarm_updated` (after parsing):
rescale to milliseconds, group the batch by type id and sensor id, merge
each group into the active dict and send one device command per non-empty
group.

The Python `selected` list holds object references, so a later message in
the same group with the same (category, type id) key would mutate an
earlier one in place before the send; this embedding uses value semantics,
and the whole-batch theorems below therefore assume pairwise-distinct
(id, type id, category) triples within a batch, under which the two
semantics agree. -/
def processBatch (svc : AlarmService) (alarm_msgs : List AlarmMessage) :
    AlarmService × List Effect :=
  let msgs := alarm_msgs.map msConvert
  let sensor_ids := dedupFirst (msgs.map (fun a => a.id))
  let type_ids := dedupFirst (msgs.map (fun a => a.type_id))
  type_ids.foldl (typeStep msgs sensor_ids) (svc, [])

/-- Decrement phase of one `_timer_loop` iteration:
`alarm.duration -= self.INTERVAL_MS` for every alarm of every sensor. -/
def tickDecrement (active : List (String × List AlarmMessage)) :
    List (String × List AlarmMessage) :=
  active.map (fun p =>
    (p.1, p.2.map (fun a => { a with duration := a.duration - AlarmService.INTERVAL_MS })))

/-- The `to_remove` list of one `_timer_loop` iteration: every
`(sensor_id, alarm)` whose decremented duration is `≤ 0`, in iteration
order. -/
def tickExpired (active : List (String × List AlarmMessage)) :
    List (String × AlarmMessage) :=
  active.flatMap (fun p =>
    (p.2.filter (fun a => decide (a.duration ≤ 0))).map (fun a => (p.1, a)))

/-- Body of the `for sensor_id, alarm in to_remove` loop: remove the expired
alarm from the sensor's list (first occurrence, value equality, as
`list.remove` does) and, when nothing remains for the sensor, drop the
sensor entry and issue the driver `stop` with the expired alarm as
context.  The emptiness test reads the defaultdict, so a missing key counts
as empty. -/
def tickRemoveStep (svc0 : AlarmService)
    (acc : List (String × List AlarmMessage) × List Effect)
    (entry : String × AlarmMessage) :
    List (String × List AlarmMessage) × List Effect :=
  let sensor_id := entry.1
  let alarm := entry.2
  let active1 :=
    match alookup acc.1 sensor_id with
    | some l => if alarm ∈ l then aset acc.1 sensor_id (l.erase alarm) else acc.1
    | none => acc.1
  if ((alookup active1 sensor_id).getD []).isEmpty then
    (aerase active1 sensor_id, acc.2 ++ svc0.stop_command sensor_id alarm)
  else (active1, acc.2)

/-- One iteration of `AlarmService._timer_loop`: decrement every active
alarm's duration by `INTERVAL_MS`, then remove the expired alarms and stop
sensors whose active list became empty. -/
def AlarmService.timerTick (svc : AlarmService) : AlarmService × List Effect :=
  let active1 := tickDecrement svc.active_sensors
  let r := (tickExpired active1).foldl (tickRemoveStep svc) (active1, [])
  ({ svc with active_sensors := r.1 }, r.2)

/-- An active `LED=RED` alarm (already in milliseconds) used by the concrete
dispatch scenarios. -/
def redActive : AlarmMessage :=
  { id := "s1", type_id := "t1", alarm_type := "LED", alarm_value := "RED",
    duration := 1000, regen_interval := 1000, priority := 1 }

/-- A registered LED-tower sensor used by the concrete dispatch scenarios. -/
def towerSensor : SensorInfo :=
  { id := "s1", name := "tower", type_id := "t1", ip := "10.0.0.2",
    port := 10001 }

/-- A service whose cache knows `towerSensor` and whose only active alarm is
`redActive` with 1000 ms remaining. -/
def timerSvc : AlarmService :=
  { active_sensors := [("s1", [redActive])],
    sensors := [("s1", towerSensor)],
    sensor_types := [("t1", "LA6_POE")],
    modules := ["LA6_POE"] }

/-- Replacing only the active dict leaves the cache lookup unchanged. -/
theorem get_sensor_and_type_active_irrel (svc : AlarmService)
    (act : List (String × List AlarmMessage)) (sensor_id : String) :
    ({ svc with active_sensors := act } : AlarmService).get_sensor_and_type
      sensor_id = svc.get_sensor_and_type sensor_id := rfl

/-- C3: every tick decrements every active alarm's remaining duration by
500 ms; a sensor holding a single alarm with 1000 ms remaining survives the
first tick with 500 ms left and no effect, and at the second tick the alarm
is removed, the sensor's entry is dropped, and exactly one driver `stop` is
issued at that tick. -/
theorem timer_countdown_two_ticks
    (svc : AlarmService) (S : String) (a : AlarmMessage)
    (info : SensorInfo) (tname : String)
    (hact : svc.active_sensors = [(S, [a])])
    (hdur : a.duration = 1000)
    (hlook : svc.get_sensor_and_type S = some (info, tname))
    (hmod : tname ∈ svc.modules) :
    (∀ (active : List (String × List AlarmMessage)) (sid : String),
      alookup (tickDecrement active) sid =
        (alookup active sid).map
          (fun l => l.map (fun x => { x with duration := x.duration - 500 }))) ∧
    svc.timerTick.2 = [] ∧
    svc.timerTick.1.active_sensors = [(S, [{ a with duration := 500 }])] ∧
    svc.timerTick.1.timerTick.1.active_sensors = [] ∧
    svc.timerTick.1.timerTick.2 =
      [Effect.stop tname info { a with duration := 0 }] := by
  have hdec : ∀ (active : List (String × List AlarmMessage)) (sid : String),
      alookup (tickDecrement active) sid =
        (alookup active sid).map
          (fun l => l.map (fun x => { x with duration := x.duration - 500 })) := by
    intro active sid
    induction active with
    | nil => simp [tickDecrement, alookup]
    | cons hd tl ih =>
      by_cases hk : hd.1 = sid
      · simp [tickDecrement, alookup, hk, AlarmService.INTERVAL_MS]
      · simpa [tickDecrement, alookup, hk, AlarmService.INTERVAL_MS] using ih
  have htick1 : svc.timerTick =
      ({ svc with active_sensors := [(S, [{ a with duration := 500 }])] }, []) := by
    simp [AlarmService.timerTick, hact, tickDecrement, tickExpired,
      AlarmService.INTERVAL_MS, hdur]
  have hstop : ({ svc with active_sensors :=
      [(S, [{ a with duration := 500 }])] } : AlarmService).stop_command S
        { a with duration := 0 } = [Effect.stop tname info { a with duration := 0 }] := by
    simp [AlarmService.stop_command, get_sensor_and_type_active_irrel, hlook, hmod]
  have htick2 : ({ svc with active_sensors :=
      [(S, [{ a with duration := 500 }])] } : AlarmService).timerTick =
      ({ svc with active_sensors := [] },
        [Effect.stop tname info { a with duration := 0 }]) := by
    simp only [AlarmService.timerTick, tickDecrement, tickExpired,
      AlarmService.INTERVAL_MS]
    norm_num
    simp [tickRemoveStep, alookup, aset, aerase, List.erase, hstop]
  refine ⟨hdec, ?_, ?_, ?_, ?_⟩
  · rw [htick1]
  · rw [htick1]
  · rw [htick1, htick2]
  · rw [htick1, htick2]

/-- C3 witness: the two-tick scenario evaluated on the concrete service. -/
theorem timer_countdown_two_ticks_witness :
    timerSvc.active_sensors = [("s1", [redActive])] ∧
    redActive.duration = 1000 ∧
    timerSvc.get_sensor_and_type "s1" = some (towerSensor, "LA6_POE") ∧
    "LA6_POE" ∈ timerSvc.modules ∧
    timerSvc.timerTick.2 = [] ∧
    timerSvc.timerTick.1.timerTick.1.active_sensors = [] ∧
    timerSvc.timerTick.1.timerTick.2 =
      [Effect.stop "LA6_POE" towerSensor { redActive with duration := 0 }] := by
  have h := timer_countdown_two_ticks timerSvc "s1" redActive towerSensor
    "LA6_POE" rfl rfl rfl (by simp [timerSvc])
  exact ⟨rfl, rfl, rfl, by simp [timerSvc], h.2.1, h.2.2.2.1, h.2.2.2.2⟩

/-- Key of an active entry for in-place update detection: the
(alarm category, type id) pair. -/
def alarmKey (a : AlarmMessage) : String × String := (a.alarm_type, a.type_id)

/-- No two entries of the list share an (alarm category, type id) key. -/
def distinctKeys (l : List AlarmMessage) : Prop := (l.map alarmKey).Nodup

/-- Writing a key makes it readable back. -/
theorem alookup_aset_self {α : Type} (d : List (String × α)) (k : String)
    (v : α) : alookup (aset d k v) k = some v := by
  induction d with
  | nil => simp [aset, alookup]
  | cons hd tl ih =>
    by_cases hk : hd.1 = k
    · simp [aset, alookup, hk]
    · simp [aset, alookup, hk, ih]

/-- Replacing the first match keeps the image of `f` pointwise when every
match agrees with the replacement under `f`. -/
theorem replaceFirst_map_eq {α β : Type} (p : α → Bool) (v : α) (f : α → β)
    (l : List α) (h : ∀ x ∈ l, p x = true → f x = f v) :
    (replaceFirst p v l).map f = l.map f := by
  induction l with
  | nil => simp [replaceFirst]
  | cons hd tl ih =>
    by_cases hp : p hd
    · simp [replaceFirst, hp, h hd (by simp) hp]
    · simp only [replaceFirst, hp, Bool.false_eq_true, if_false, List.map_cons]
      rw [ih (fun x hx hpx => h x (by simp [hx]) hpx)]

/-- C2: merging one incoming message into a sensor's active list —
no matching (category, type id) entry appends the message; a matching entry
with a different value issues exactly one driver `stop` carrying the old
entry and overwrites value, duration, regen interval and priority in place;
a matching entry with the same value refreshes duration, regen interval and
priority with no effect; and in every case key-distinctness of the sensor's
list is preserved, so the sensor never holds two entries with the same
(category, type id). -/
theorem merge_alarm_spec (svc : AlarmService) (sensor_id : String)
    (alarm : AlarmMessage) (info : SensorInfo) (tname : String)
    (alarms : List AlarmMessage)
    (halarms : (alookup svc.active_sensors sensor_id).getD [] = alarms)
    (hlook : svc.get_sensor_and_type sensor_id = some (info, tname))
    (hmod : tname ∈ svc.modules) :
    (alarms.find? (sameKey alarm) = none →
      mergeAlarm svc sensor_id alarm =
        (aset svc.active_sensors sensor_id (alarms ++ [alarm]), [])) ∧
    (∀ old, alarms.find? (sameKey alarm) = some old →
      old.alarm_value ≠ alarm.alarm_value →
      mergeAlarm svc sensor_id alarm =
        (aset svc.active_sensors sensor_id
          (replaceFirst (sameKey alarm)
            { old with
              alarm_value := alarm.alarm_value,
              duration := alarm.duration,
              regen_interval := alarm.regen_interval,
              priority := alarm.priority } alarms),
         [Effect.stop tname info old])) ∧
    (∀ old, alarms.find? (sameKey alarm) = some old →
      old.alarm_value = alarm.alarm_value →
      mergeAlarm svc sensor_id alarm =
        (aset svc.active_sensors sensor_id
          (replaceFirst (sameKey alarm)
            { old with
              duration := alarm.duration,
              regen_interval := alarm.regen_interval,
              priority := alarm.priority } alarms),
         [])) ∧
    (distinctKeys alarms →
      distinctKeys ((alookup (mergeAlarm svc sensor_id alarm).1 sensor_id).getD [])) := by
  refine ⟨?_, ?_, ?_, ?_⟩
  · intro hnone
    simp [mergeAlarm, halarms, hnone]
  · intro old hfind hne
    simp [mergeAlarm, halarms, hfind, hne, AlarmService.stop_command, hlook, hmod]
  · intro old hfind heq
    have hval : { old with
        alarm_value := alarm.alarm_value,
        duration := alarm.duration,
        regen_interval := alarm.regen_interval,
        priority := alarm.priority } =
      ({ old with
        duration := alarm.duration,
        regen_interval := alarm.regen_interval,
        priority := alarm.priority } : AlarmMessage) := by
      simp [heq]
    simp [mergeAlarm, halarms, hfind, heq, hval]
  · intro hdk
    cases hfind : alarms.find? (sameKey alarm) with
    | none =>
      have heq : (mergeAlarm svc sensor_id alarm).1 =
          aset svc.active_sensors sensor_id (alarms ++ [alarm]) := by
        simp [mergeAlarm, halarms, hfind]
      rw [heq]
      simp only [alookup_aset_self, Option.getD_some, distinctKeys,
        List.map_append, List.map_cons, List.map_nil]
      rw [List.nodup_append]
      refine ⟨hdk, List.nodup_singleton _, ?_⟩
      intro k hk
      simp only [List.mem_map] at hk
      obtain ⟨x, hx, hkx⟩ := hk
      have := List.find?_eq_none.mp hfind x hx
      simp only [sameKey, Bool.and_eq_true, beq_iff_eq, not_and_or] at this
      simp only [List.mem_singleton]
      intro hcontra
      rw [← hkx] at hcontra
      simp only [alarmKey, Prod.mk.injEq] at hcontra
      rcases this with h1 | h1 <;> exact h1 (by tauto)
    | some old =>
      have holdkey : sameKey alarm old = true := List.find?_some hfind
      have heq : (mergeAlarm svc sensor_id alarm).1 =
          aset svc.active_sensors sensor_id
            (replaceFirst (sameKey alarm)
              { old with
                alarm_value := alarm.alarm_value,
                duration := alarm.duration,
                regen_interval := alarm.regen_interval,
                priority := alarm.priority } alarms) := by
        simp [mergeAlarm, halarms, hfind]
      rw [heq]
      simp only [alookup_aset_self, Option.getD_some]
      have hmapeq : (replaceFirst (sameKey alarm)
          { old with
            alarm_value := alarm.alarm_value,
            duration := alarm.duration,
            regen_interval := alarm.regen_interval,
            priority := alarm.priority } alarms).map alarmKey =
          alarms.map alarmKey := by
        apply replaceFirst_map_eq
        intro x _ hpx
        simp only [sameKey, Bool.and_eq_true, beq_iff_eq] at hpx holdkey
        simp [alarmKey, hpx.1, hpx.2, holdkey.1, holdkey.2]
      simpa [distinctKeys, hmapeq] using hdk

/-- An incoming `LED=YELLOW` message (already in milliseconds) for the same
sensor, category and type as `redActive`. -/
def yellowMsg : AlarmMessage :=
  { id := "s1", type_id := "t1", alarm_type := "LED", alarm_value := "YELLOW",
    duration := 3000, regen_interval := 1000, priority := 2 }

/-- C2 witness: merging `yellowMsg` over the active `redActive` issues one
stop for the red state and overwrites the entry in place. -/
theorem merge_alarm_spec_witness :
    (alookup timerSvc.active_sensors "s1").getD [] = [redActive] ∧
    timerSvc.get_sensor_and_type "s1" = some (towerSensor, "LA6_POE") ∧
    [redActive].find? (sameKey yellowMsg) = some redActive ∧
    redActive.alarm_value ≠ yellowMsg.alarm_value ∧
    mergeAlarm timerSvc "s1" yellowMsg =
      (aset timerSvc.active_sensors "s1"
        (replaceFirst (sameKey yellowMsg)
          { redActive with
            alarm_value := yellowMsg.alarm_value,
            duration := yellowMsg.duration,
            regen_interval := yellowMsg.regen_interval,
            priority := yellowMsg.priority } [redActive]),
       [Effect.stop "LA6_POE" towerSensor redActive]) := by
  have h := merge_alarm_spec timerSvc "s1" yellowMsg towerSensor "LA6_POE"
    [redActive] rfl rfl (by simp [timerSvc])
  exact ⟨rfl, rfl, by decide, by decide,
    h.2.1 redActive (by decide) (by decide)⟩

/-- An incoming `BUZZER=ON` message for the same sensor and type as
`redActive`, durations still in seconds as on the wire. -/
def buzzerMsgSec : AlarmMessage :=
  { id := "s1", type_id := "t1", alarm_type := "BUZZER", alarm_value := "ON",
    duration := 5, regen_interval := 1, priority := 1 }

/-- C1 counterexample: with `redActive` already active, a batch containing
only `buzzerMsgSec` produces exactly one driver `send`, but the alarm list
it carries is the batch's `selected` list `[msConvert buzzerMsgSec]`, not
the sensor's full (sensor, type) group state
`[redActive, msConvert buzzerMsgSec]`. -/
theorem send_not_full_state_counterexample :
    (processBatch timerSvc [buzzerMsgSec]).2 =
      [Effect.send "LA6_POE" towerSensor [msConvert buzzerMsgSec]] ∧
    ((alookup (processBatch timerSvc [buzzerMsgSec]).1.active_sensors
        "s1").getD []).filter (fun a => a.type_id == "t1") =
      [redActive, msConvert buzzerMsgSec] ∧
    [msConvert buzzerMsgSec] ≠ [redActive, msConvert buzzerMsgSec] := by
  refine ⟨by decide, by decide, by decide⟩

/-- Two service states sharing the sensor cache and module table. -/
def sameCache (a b : AlarmService) : Prop :=
  a.sensors = b.sensors ∧ a.sensor_types = b.sensor_types ∧ a.modules = b.modules

/-- Cache equality transports `send_command`. -/
theorem send_command_congr {a b : AlarmService} (h : sameCache a b)
    (sensor_id : String) (alarms : List AlarmMessage) :
    a.send_command sensor_id alarms = b.send_command sensor_id alarms := by
  obtain ⟨h1, h2, h3⟩ := h
  unfold AlarmService.send_command AlarmService.get_sensor_and_type
  rw [h1, h2, h3]

/-- Merging never issues a driver `send`. -/
theorem mergeAlarm_no_send (svc : AlarmService) (sensor_id : String)
    (alarm : AlarmMessage) :
    (mergeAlarm svc sensor_id alarm).2.filter Effect.isSend = [] := by
  rcases hf : ((alookup svc.active_sensors sensor_id).getD []).find?
      (sameKey alarm) with _ | old
  · simp [mergeAlarm, hf]
  · rcases hg : svc.get_sensor_and_type sensor_id with _ | p
    · simp only [mergeAlarm, hf, AlarmService.stop_command, hg]
      split <;> simp
    · simp only [mergeAlarm, hf, AlarmService.stop_command, hg]
      split
      · split <;> simp [Effect.isSend]
      · simp

/-- A `send_command` result consists of `send` effects only. -/
theorem send_command_all_send (svc : AlarmService) (sensor_id : String)
    (alarms : List AlarmMessage) :
    (svc.send_command sensor_id alarms).filter Effect.isSend =
      svc.send_command sensor_id alarms := by
  rcases hg : svc.get_sensor_and_type sensor_id with _ | p
  · simp [AlarmService.send_command, hg]
  · simp only [AlarmService.send_command, hg]
    split <;> simp [Effect.isSend]

/-- Every effect in a `send_command` result is the `send` of the argument
list. -/
theorem send_command_mem (svc : AlarmService) (sensor_id : String)
    (alarms : List AlarmMessage) (e : Effect)
    (he : e ∈ svc.send_command sensor_id alarms) :
    ∃ info tname, e = Effect.send tname info alarms := by
  unfold AlarmService.send_command at he
  cases hg : svc.get_sensor_and_type sensor_id with
  | none => rw [hg] at he; cases he
  | some p =>
    rw [hg] at he
    by_cases hm : p.2 ∈ svc.modules
    · simp only [hm, if_true, List.mem_singleton] at he
      exact ⟨p.1, p.2, he⟩
    · simp only [hm, if_false] at he
      cases he

/-- The merge fold keeps the cache and produces no `send` effects beyond the
accumulator's. -/
theorem processSelected_fold (sensor_id : String)
    (selected : List AlarmMessage) :
    ∀ acc : AlarmService × List Effect,
      sameCache (selected.foldl
        (fun acc alarm =>
          let r := mergeAlarm acc.1 sensor_id alarm
          ({ acc.1 with active_sensors := r.1 }, acc.2 ++ r.2)) acc).1 acc.1 ∧
      ((selected.foldl
        (fun acc alarm =>
          let r := mergeAlarm acc.1 sensor_id alarm
          ({ acc.1 with active_sensors := r.1 }, acc.2 ++ r.2)) acc).2.filter
            Effect.isSend = acc.2.filter Effect.isSend) := by
  induction selected with
  | nil => intro acc; exact ⟨⟨rfl, rfl, rfl⟩, rfl⟩
  | cons hd tl ih =>
    intro acc
    simp only [List.foldl_cons]
    obtain ⟨hc, hs⟩ := ih
      ({ acc.1 with active_sensors := (mergeAlarm acc.1 sensor_id hd).1 },
        acc.2 ++ (mergeAlarm acc.1 sensor_id hd).2)
    refine ⟨⟨hc.1, hc.2.1, hc.2.2⟩, ?_⟩
    rw [hs, List.filter_append, mergeAlarm_no_send, List.append_nil]

/-- The `send` effects of one group are exactly the group's single
`send_command`, and the group keeps the cache. -/
theorem processGroup_sends (svc : AlarmService) (sensor_id : String)
    (selected : List AlarmMessage) :
    sameCache (processGroup svc sensor_id selected).1 svc ∧
    (processGroup svc sensor_id selected).2.filter Effect.isSend =
      svc.send_command sensor_id selected := by
  obtain ⟨hc, hs⟩ := processSelected_fold sensor_id selected (svc, [])
  refine ⟨hc, ?_⟩
  unfold processGroup
  rw [List.filter_append]
  unfold processSelected
  rw [hs]
  simp only [List.filter_nil, List.nil_append]
  rw [send_command_congr hc, send_command_all_send]

/-- Membership after first-occurrence deduplication. -/
theorem mem_dedupFirstAux (x : String) :
    ∀ (l seen : List String),
      (x ∈ dedupFirstAux seen l ↔ x ∈ l ∧ x ∉ seen) := by
  intro l
  induction l with
  | nil => intro seen; simp [dedupFirstAux]
  | cons hd tl ih =>
    intro seen
    by_cases hmem : hd ∈ seen
    · simp only [dedupFirstAux, if_pos hmem, ih seen, List.mem_cons]
      constructor
      · rintro ⟨h1, h2⟩; exact ⟨Or.inr h1, h2⟩
      · rintro ⟨h1 | h1, h2⟩
        · exact absurd (h1 ▸ hmem) h2
        · exact ⟨h1, h2⟩
    · simp only [dedupFirstAux, if_neg hmem, List.mem_cons, ih (hd :: seen)]
      constructor
      · rintro (h1 | ⟨h1, h2⟩)
        · exact ⟨Or.inl h1, h1 ▸ hmem⟩
        · exact ⟨Or.inr h1, fun hc => h2 (Or.inr hc)⟩
      · rintro ⟨h1 | h1, h2⟩
        · exact Or.inl h1
        · by_cases hx : x = hd
          · exact Or.inl hx
          · exact Or.inr ⟨h1, fun hc => hc.elim hx h2⟩

/-- Membership in `dedupFirst` is membership in the original list. -/
theorem mem_dedupFirst (x : String) (l : List String) :
    x ∈ dedupFirst l ↔ x ∈ l := by
  simp [dedupFirst, mem_dedupFirstAux]

/-- `dedupFirstAux` yields no duplicates and nothing already seen. -/
theorem nodup_dedupFirstAux :
    ∀ (l seen : List String), (dedupFirstAux seen l).Nodup := by
  intro l
  induction l with
  | nil => intro seen; simp [dedupFirstAux]
  | cons hd tl ih =>
    intro seen
    by_cases hmem : hd ∈ seen
    · simpa [dedupFirstAux, if_pos hmem] using ih seen
    · simp only [dedupFirstAux, if_neg hmem, List.nodup_cons]
      refine ⟨?_, ih (hd :: seen)⟩
      intro hc
      exact ((mem_dedupFirstAux hd tl (hd :: seen)).mp hc).2 (List.mem_cons_self _ _)

/-- `dedupFirst` yields no duplicates. -/
theorem nodup_dedupFirst (l : List String) : (dedupFirst l).Nodup :=
  nodup_dedupFirstAux l []

/-- Counting an effect in a concatenation of per-key lists that never hold
it gives zero. -/
theorem count_flatMap_zero (e : Effect) (f : String → List Effect) :
    ∀ l : List String, (∀ y ∈ l, (f y).count e = 0) →
      (l.flatMap f).count e = 0 := by
  intro l h
  induction l with
  | nil => simp
  | cons hd tl ih =>
    simp only [List.flatMap_cons, List.count_append]
    rw [h hd (by simp), ih (fun y hy => h y (by simp [hy]))]

/-- Counting an effect held exactly once by exactly one key of a
duplicate-free key list gives one. -/
theorem count_flatMap_one (e : Effect) (f : String → List Effect) :
    ∀ (l : List String), l.Nodup → ∀ x, x ∈ l → (f x).count e = 1 →
      (∀ y ∈ l, y ≠ x → (f y).count e = 0) → (l.flatMap f).count e = 1 := by
  intro l
  induction l with
  | nil => intro _ x hx; cases hx
  | cons hd tl ih =>
    intro hnd x hx hone hzero
    simp only [List.nodup_cons] at hnd
    simp only [List.flatMap_cons, List.count_append]
    rcases List.mem_cons.mp hx with hx1 | hx1
    · subst hx1
      rw [hone, count_flatMap_zero e f tl
        (fun y hy => hzero y (List.mem_cons_of_mem _ hy)
          (fun hc => hnd.1 (hc ▸ hy)))]
    · rw [hzero hd (by simp) (fun hc => hnd.1 (hc ▸ hx1)),
        ih hnd.2 x hx1 hone (fun y hy hne => hzero y (by simp [hy]) hne)]

/-- The `send` effects of a whole batch, one per non-empty
`(type id, sensor id)` group in iteration order: the group's
`send_command` applied to the group's `selected` messages. -/
def groupSends (svc : AlarmService) (msgs : List AlarmMessage) : List Effect :=
  (dedupFirst (msgs.map (fun a => a.type_id))).flatMap (fun tid =>
    (dedupFirst (msgs.map (fun a => a.id))).flatMap (fun sid =>
      if (selGroup msgs sid tid).isEmpty then []
      else svc.send_command sid (selGroup msgs sid tid)))

/-- One `groupStep` keeps the cache and appends at most one `send`, the
group's own. -/
theorem groupStep_sends (msgs : List AlarmMessage) (type_id : String)
    (acc : AlarmService × List Effect) (sensor_id : String)
    (svc : AlarmService) (hc : sameCache acc.1 svc) :
    sameCache (groupStep msgs type_id acc sensor_id).1 svc ∧
    (groupStep msgs type_id acc sensor_id).2.filter Effect.isSend =
      acc.2.filter Effect.isSend ++
        (if (selGroup msgs sensor_id type_id).isEmpty then []
         else svc.send_command sensor_id (selGroup msgs sensor_id type_id)) := by
  unfold groupStep
  by_cases hsel : (selGroup msgs sensor_id type_id).isEmpty
  · simp [hsel, hc]
  · obtain ⟨hgc, hgs⟩ := processGroup_sends acc.1 sensor_id
      (selGroup msgs sensor_id type_id)
    simp only [hsel, Bool.false_eq_true, if_false, List.filter_append]
    refine ⟨⟨hgc.1.trans hc.1, hgc.2.1.trans hc.2.1, hgc.2.2.trans hc.2.2⟩, ?_⟩
    rw [hgs, send_command_congr hc]

/-- The sensor-id fold keeps the cache and appends exactly the non-empty
groups' sends of this type id. -/
theorem typeStep_sends (msgs : List AlarmMessage) (type_id : String) :
    ∀ (sensor_ids : List String) (acc : AlarmService × List Effect)
      (svc : AlarmService), sameCache acc.1 svc →
      sameCache (sensor_ids.foldl (groupStep msgs type_id) acc).1 svc ∧
      (sensor_ids.foldl (groupStep msgs type_id) acc).2.filter Effect.isSend =
        acc.2.filter Effect.isSend ++
          sensor_ids.flatMap (fun sid =>
            if (selGroup msgs sid type_id).isEmpty then []
            else svc.send_command sid (selGroup msgs sid type_id)) := by
  intro sensor_ids
  induction sensor_ids with
  | nil => intro acc svc hc; exact ⟨hc, by simp⟩
  | cons hd tl ih =>
    intro acc svc hc
    obtain ⟨hc1, hs1⟩ := groupStep_sends msgs type_id acc hd svc hc
    obtain ⟨hc2, hs2⟩ := ih (groupStep msgs type_id acc hd) svc hc1
    refine ⟨hc2, ?_⟩
    simp only [List.foldl_cons] at *
    rw [hs2, hs1, List.flatMap_cons, List.append_assoc]

/-- The type-id fold keeps the cache and appends exactly the non-empty
groups' sends. -/
theorem typeFold_sends (msgs : List AlarmMessage) (sensor_ids : List String) :
    ∀ (type_ids : List String) (acc : AlarmService × List Effect)
      (svc : AlarmService), sameCache acc.1 svc →
      sameCache (type_ids.foldl (typeStep msgs sensor_ids) acc).1 svc ∧
      (type_ids.foldl (typeStep msgs sensor_ids) acc).2.filter Effect.isSend =
        acc.2.filter Effect.isSend ++
          type_ids.flatMap (fun tid =>
            sensor_ids.flatMap (fun sid =>
              if (selGroup msgs sid tid).isEmpty then []
              else svc.send_command sid (selGroup msgs sid tid))) := by
  intro type_ids
  induction type_ids with
  | nil => intro acc svc hc; exact ⟨hc, by simp⟩
  | cons hd tl ih =>
    intro acc svc hc
    obtain ⟨hc1, hs1⟩ := typeStep_sends msgs hd sensor_ids acc svc hc
    obtain ⟨hc2, hs2⟩ := ih (typeStep msgs sensor_ids acc hd) svc hc1
    refine ⟨hc2, ?_⟩
    simp only [List.foldl_cons] at *
    rw [hs2]
    unfold typeStep
    rw [hs1, List.flatMap_cons, List.append_assoc]

/-- C1 (amended): for each `(sensor id, type id)` group present in the
batch, the dispatch issues exactly one driver `send`, and the alarm list it
carries is the batch's `selected` messages for that group (seconds rescaled
to milliseconds) — not the sensor's full active state.  The first conjunct
gives the whole ordered `send` trace; the second states the exactly-once
property for any registered group. -/
theorem batch_one_send_per_group (svc : AlarmService)
    (batch : List AlarmMessage)
    (hkeys : (batch.map (fun a => (a.id, a.type_id, a.alarm_type))).Nodup) :
    (processBatch svc batch).2.filter Effect.isSend =
      groupSends svc (batch.map msConvert) ∧
    ∀ sid tid info tname,
      svc.get_sensor_and_type sid = some (info, tname) →
      tname ∈ svc.modules →
      selGroup (batch.map msConvert) sid tid ≠ [] →
      ((processBatch svc batch).2.filter Effect.isSend).count
        (Effect.send tname info (selGroup (batch.map msConvert) sid tid)) = 1 := by
  have hmain : (processBatch svc batch).2.filter Effect.isSend =
      groupSends svc (batch.map msConvert) := by
    unfold processBatch groupSends
    have h := typeFold_sends (batch.map msConvert)
      (dedupFirst ((batch.map msConvert).map (fun a => a.id)))
      (dedupFirst ((batch.map msConvert).map (fun a => a.type_id)))
      (svc, []) svc ⟨rfl, rfl, rfl⟩
    simpa using h.2
  refine ⟨hmain, ?_⟩
  intro sid tid info tname hreg hmod hsel
  rw [hmain]
  obtain ⟨a0, ha0⟩ := List.exists_mem_of_ne_nil _ hsel
  have ha0' := List.mem_filter.mp ha0
  have haid : a0.id = sid := by
    have := ha0'.2
    simp only [Bool.and_eq_true, beq_iff_eq] at this
    exact this.1
  have hatid : a0.type_id = tid := by
    have := ha0'.2
    simp only [Bool.and_eq_true, beq_iff_eq] at this
    exact this.2
  have hempty : (selGroup (batch.map msConvert) sid tid).isEmpty = false := by
    cases h' : selGroup (batch.map msConvert) sid tid with
    | nil => exact absurd h' hsel
    | cons b bs => rfl
  have hsendeq : svc.send_command sid (selGroup (batch.map msConvert) sid tid) =
      [Effect.send tname info (selGroup (batch.map msConvert) sid tid)] := by
    simp [AlarmService.send_command, hreg, hmod]
  have hzero : ∀ sid' tid', ¬ (sid' = sid ∧ tid' = tid) →
      ((if (selGroup (batch.map msConvert) sid' tid').isEmpty then []
        else svc.send_command sid'
          (selGroup (batch.map msConvert) sid' tid')).count
        (Effect.send tname info (selGroup (batch.map msConvert) sid tid))) = 0 := by
    intro sid' tid' hne
    by_cases he : (selGroup (batch.map msConvert) sid' tid').isEmpty = true
    · simp [he]
    · simp only [he, if_false]
      rw [List.count_eq_zero]
      intro hmem
      obtain ⟨info', tname', heq⟩ := send_command_mem svc sid' _ _ hmem
      have hlists : selGroup (batch.map msConvert) sid tid =
          selGroup (batch.map msConvert) sid' tid' := by
        injection heq with _ _ h3
      have ha0'' := hlists ▸ ha0
      have := (List.mem_filter.mp ha0'').2
      simp only [Bool.and_eq_true, beq_iff_eq] at this
      exact hne ⟨by rw [← haid, this.1], by rw [← hatid, this.2]⟩
  have hsidmem : sid ∈ dedupFirst ((batch.map msConvert).map (fun a => a.id)) := by
    rw [mem_dedupFirst]
    exact haid ▸ List.mem_map_of_mem _ ha0'.1
  have htidmem : tid ∈ dedupFirst
      ((batch.map msConvert).map (fun a => a.type_id)) := by
    rw [mem_dedupFirst]
    exact hatid ▸ List.mem_map_of_mem _ ha0'.1
  unfold groupSends
  apply count_flatMap_one _ _ _ (nodup_dedupFirst _) tid htidmem
  · apply count_flatMap_one _ _ _ (nodup_dedupFirst _) sid hsidmem
    · rw [hempty]
      simp only [Bool.false_eq_true, if_false, hsendeq]
      simp
    · intro y _ hy
      exact hzero y tid (fun hc => hy hc.1)
  · intro y _ hy
    apply count_flatMap_zero
    intro z _
    exact hzero z y (fun hc => hy hc.2)

/-- C1 witness: the amended theorem evaluated on the concrete service and
single-message batch. -/
theorem batch_one_send_per_group_witness :
    ([buzzerMsgSec].map (fun a => (a.id, a.type_id, a.alarm_type))).Nodup ∧
    (processBatch timerSvc [buzzerMsgSec]).2.filter Effect.isSend =
      groupSends timerSvc ([buzzerMsgSec].map msConvert) ∧
    timerSvc.get_sensor_and_type "s1" = some (towerSensor, "LA6_POE") ∧
    "LA6_POE" ∈ timerSvc.modules ∧
    selGroup ([buzzerMsgSec].map msConvert) "s1" "t1" ≠ [] ∧
    ((processBatch timerSvc [buzzerMsgSec]).2.filter Effect.isSend).count
      (Effect.send "LA6_POE" towerSensor
        (selGroup ([buzzerMsgSec].map msConvert) "s1" "t1")) = 1 := by
  have h := batch_one_send_per_group timerSvc [buzzerMsgSec] (by decide)
  exact ⟨by decide, h.1, rfl, by simp [timerSvc], by decide,
    h.2 "s1" "t1" towerSensor "LA6_POE" rfl (by simp [timerSvc]) (by decide)⟩

/-! ### AEPEL speaker scheduler (`app/alarms/aepel_speaker.py`) -/

/-- Python `datetime.min` as a millisecond timestamp relative to the Unix
epoch (0001-01-01T00:00). -/
def datetimeMin : Int := -62135596800000

/-- Dataclass `EventAlertState`.  The two `datetime.now()` default factories
become explicit creation-time arguments at the construction sites. -/
structure EventAlertState where
  is_set : Bool := false
  last_alert_time : Int := datetimeMin
  last_detected_time : Int
  start_time : Int
  event_interval : Int := 3000
  voice_port : String := "1"
  priority : Int := 10
deriving Repr, DecidableEq

/-- Class `AlertManager`: playback settings, per-voice-port states and the
single shared next-to-play slot. -/
structure AlertManager where
  max_time_second : Int := 120
  pause_time_second : Int := 0
  alert_states : List (String × EventAlertState)
  next_alert : EventAlertState
deriving Repr, DecidableEq

/-- Constant `AlertManager.MARGIN_TIMEOUT_TIME` (ms). -/
def AlertManager.MARGIN_TIMEOUT_TIME : Int := 2000

/-- Method `AlertManager.add_event`, with `datetime.now()` passed in as
`now`: create the port's state if missing, refresh interval/port/priority,
restart the countdown window on staleness, refresh the detection time, drop
the event past the max-duration cap, and otherwise compete for the
next-to-play slot (strictly higher priority wins; at equal priority the
pending candidate survives only if its last play time is older). -/
def AlertManager.add_event (m : AlertManager) (now : Int) (voice_port : String)
    (priority : Int) (event_interval : Int) : AlertManager :=
  let cur0 :=
    match alookup m.alert_states voice_port with
    | some st => st
    | none =>
      { is_set := false, last_alert_time := datetimeMin,
        last_detected_time := now, start_time := now,
        event_interval := event_interval, voice_port := voice_port,
        priority := priority }
  let cur1 := { cur0 with
    event_interval := event_interval, voice_port := voice_port,
    priority := priority }
  let cur2 :=
    if cur1.last_detected_time +
        (cur1.event_interval + AlertManager.MARGIN_TIMEOUT_TIME) < now then
      { cur1 with start_time := now }
    else cur1
  let cur3 := { cur2 with last_detected_time := now }
  let m1 := { m with alert_states := aset m.alert_states voice_port cur3 }
  if cur3.start_time + m.max_time_second * 1000 < now then m1
  else if m1.next_alert.is_set ∧ m1.next_alert.priority < priority then m1
  else if m1.next_alert.is_set ∧ m1.next_alert.priority = priority ∧
      m1.next_alert.last_alert_time < cur3.last_alert_time then m1
  else { m1 with next_alert := { cur3 with is_set := true } }

/-- Writing one key leaves the other keys' lookups unchanged. -/
theorem alookup_aset_ne {α : Type} (d : List (String × α)) (k k' : String)
    (v : α) (h : k' ≠ k) : alookup (aset d k v) k' = alookup d k' := by
  induction d with
  | nil =>
    simp only [aset, alookup]
    rw [if_neg (fun hc => h hc.symm)]
  | cons hd tl ih =>
    by_cases hk : hd.1 = k
    · have hne : ¬ k = k' := fun hc => h hc.symm
      simp [aset, alookup, hk, hne]
    · simp [aset, alookup, hk, ih]

/-- For a known, non-stale port that is under the max-duration cap,
`add_event` refreshes the port's bookkeeping and runs the priority
competition for the next-to-play slot. -/
theorem add_event_fresh (m : AlertManager) (now : Int) (voice_port : String)
    (priority event_interval : Int) (st : EventAlertState)
    (hst : alookup m.alert_states voice_port = some st)
    (hfresh : ¬ st.last_detected_time + (event_interval + 2000) < now)
    (hmax : ¬ st.start_time + m.max_time_second * 1000 < now) :
    m.add_event now voice_port priority event_interval =
      (let cur3 := { st with
        event_interval := event_interval, voice_port := voice_port,
        priority := priority, last_detected_time := now }
      let m1 := { m with alert_states := aset m.alert_states voice_port cur3 }
      if m.next_alert.is_set ∧ m.next_alert.priority < priority then m1
      else if m.next_alert.is_set ∧ m.next_alert.priority = priority ∧
          m.next_alert.last_alert_time < st.last_alert_time then m1
      else { m1 with next_alert := { cur3 with is_set := true } }) := by
  simp only [AlertManager.add_event, AlertManager.MARGIN_TIMEOUT_TIME, hst]
  rw [if_neg hfresh, if_neg hmax]

/-- For a known, non-stale port whose countdown window has exceeded the
max-duration cap, `add_event` still refreshes the port's bookkeeping but
leaves the next-to-play slot untouched. -/
theorem add_event_overmax (m : AlertManager) (now : Int) (voice_port : String)
    (priority event_interval : Int) (st : EventAlertState)
    (hst : alookup m.alert_states voice_port = some st)
    (hfresh : ¬ st.last_detected_time + (event_interval + 2000) < now)
    (hmax : st.start_time + m.max_time_second * 1000 < now) :
    m.add_event now voice_port priority event_interval =
      { m with alert_states := aset m.alert_states voice_port
                 { st with
                   event_interval := event_interval, voice_port := voice_port,
                   priority := priority, last_detected_time := now } } ∧
    (m.add_event now voice_port priority event_interval).next_alert =
      m.next_alert := by
  have h : m.add_event now voice_port priority event_interval =
      { m with alert_states := aset m.alert_states voice_port
                 { st with
                   event_interval := event_interval, voice_port := voice_port,
                   priority := priority, last_detected_time := now } } := by
    simp only [AlertManager.add_event, AlertManager.MARGIN_TIMEOUT_TIME, hst]
    rw [if_neg hfresh, if_pos hmax]
  exact ⟨h, by rw [h]⟩

/-- C4: two events of equal priority submitted for ports `A` and `B`, both
known, non-stale and under the max-duration cap, where `A`'s last actual
play time is strictly earlier than `B`'s and no candidate is pending
beforehand: `A` ends up as the pending next-to-play candidate in either
submission order. -/
theorem add_event_tiebreak (m : AlertManager) (now1 now2 : Int) (A B : String)
    (p i : Int) (sa sb : EventAlertState)
    (hAB : A ≠ B)
    (hA : alookup m.alert_states A = some sa)
    (hB : alookup m.alert_states B = some sb)
    (hpend : m.next_alert.is_set = false)
    (htie : sa.last_alert_time < sb.last_alert_time)
    (hfA1 : ¬ sa.last_detected_time + (i + 2000) < now1)
    (hmA1 : ¬ sa.start_time + m.max_time_second * 1000 < now1)
    (hfA2 : ¬ sa.last_detected_time + (i + 2000) < now2)
    (hmA2 : ¬ sa.start_time + m.max_time_second * 1000 < now2)
    (hfB1 : ¬ sb.last_detected_time + (i + 2000) < now1)
    (hmB1 : ¬ sb.start_time + m.max_time_second * 1000 < now1)
    (hfB2 : ¬ sb.last_detected_time + (i + 2000) < now2)
    (hmB2 : ¬ sb.start_time + m.max_time_second * 1000 < now2) :
    (((m.add_event now1 A p i).add_event now2 B p i).next_alert.is_set = true ∧
     ((m.add_event now1 A p i).add_event now2 B p i).next_alert.voice_port = A) ∧
    (((m.add_event now1 B p i).add_event now2 A p i).next_alert.is_set = true ∧
     ((m.add_event now1 B p i).add_event now2 A p i).next_alert.voice_port = A) := by
  constructor
  · have h1 : m.add_event now1 A p i =
        { m with
          alert_states := aset m.alert_states A
            { sa with
              event_interval := i
              voice_port := A
              priority := p
              last_detected_time := now1 },
          next_alert :=
            { sa with
              event_interval := i
              voice_port := A
              priority := p
              last_detected_time := now1
              is_set := true } } := by
      rw [add_event_fresh m now1 A p i sa hA hfA1 hmA1]
      simp [hpend]
    rw [h1]
    have hlookB : alookup (aset m.alert_states A
        { sa with
          event_interval := i
          voice_port := A
          priority := p
          last_detected_time := now1 }) B = some sb := by
      rw [alookup_aset_ne _ _ _ _ (Ne.symm hAB)]
      exact hB
    rw [add_event_fresh
      { m with
        alert_states := aset m.alert_states A
          { sa with
            event_interval := i
            voice_port := A
            priority := p
            last_detected_time := now1 },
        next_alert :=
          { sa with
            event_interval := i
            voice_port := A
            priority := p
            last_detected_time := now1
            is_set := true } }
      now2 B p i sb hlookB hfB2 hmB2]
    rw [if_neg (fun h => lt_irrefl p h.2)]
    rw [if_pos ⟨rfl, rfl, htie⟩]
    exact ⟨rfl, rfl⟩
  · have h1 : m.add_event now1 B p i =
        { m with
          alert_states := aset m.alert_states B
            { sb with
              event_interval := i
              voice_port := B
              priority := p
              last_detected_time := now1 },
          next_alert :=
            { sb with
              event_interval := i
              voice_port := B
              priority := p
              last_detected_time := now1
              is_set := true } } := by
      rw [add_event_fresh m now1 B p i sb hB hfB1 hmB1]
      simp [hpend]
    rw [h1]
    have hlookA : alookup (aset m.alert_states B
        { sb with
          event_interval := i
          voice_port := B
          priority := p
          last_detected_time := now1 }) A = some sa := by
      rw [alookup_aset_ne _ _ _ _ hAB]
      exact hA
    rw [add_event_fresh
      { m with
        alert_states := aset m.alert_states B
          { sb with
            event_interval := i
            voice_port := B
            priority := p
            last_detected_time := now1 },
        next_alert :=
          { sb with
            event_interval := i
            voice_port := B
            priority := p
            last_detected_time := now1
            is_set := true } }
      now2 A p i sa hlookA hfA2 hmA2]
    rw [if_neg (fun h => lt_irrefl p h.2)]
    rw [if_neg (fun h => lt_asymm htie h.2.2)]
    exact ⟨rfl, rfl⟩

/-- An idle next-to-play slot (the manager's initial `EventAlertState()`,
created at time 0). -/
def idleNext : EventAlertState :=
  { is_set := false, last_alert_time := datetimeMin, last_detected_time := 0,
    start_time := 0, event_interval := 3000, voice_port := "1", priority := 10 }

/-- Port "3" bookkeeping: played last at time 1000. -/
def portA_state : EventAlertState :=
  { is_set := false, last_alert_time := 1000, last_detected_time := 50000,
    start_time := 50000, event_interval := 1000, voice_port := "3",
    priority := 5 }

/-- Port "4" bookkeeping: played last at time 2000, later than port "3". -/
def portB_state : EventAlertState :=
  { portA_state with last_alert_time := 2000, voice_port := "4" }

/-- A concrete manager holding ports "3" and "4" with no pending
candidate. -/
def tieMgr : AlertManager :=
  { max_time_second := 120, pause_time_second := 2,
    alert_states := [("3", portA_state), ("4", portB_state)],
    next_alert := idleNext }

/-- C4 witness: the tie-break theorem evaluated on the concrete manager;
port "3" (earlier last play) wins in both submission orders. -/
theorem add_event_tiebreak_witness :
    ("3" : String) ≠ "4" ∧
    alookup tieMgr.alert_states "3" = some portA_state ∧
    alookup tieMgr.alert_states "4" = some portB_state ∧
    tieMgr.next_alert.is_set = false ∧
    portA_state.last_alert_time < portB_state.last_alert_time ∧
    ((tieMgr.add_event 51000 "3" 5 1000).add_event 51500 "4" 5
      1000).next_alert.voice_port = "3" ∧
    ((tieMgr.add_event 51000 "4" 5 1000).add_event 51500 "3" 5
      1000).next_alert.voice_port = "3" := by
  have h := add_event_tiebreak tieMgr 51000 51500 "3" "4" 5 1000
    portA_state portB_state (by decide) (by decide) (by decide) (by decide)
    (by decide) (by decide) (by decide) (by decide) (by decide) (by decide)
    (by decide) (by decide) (by decide)
  exact ⟨by decide, by decide, by decide, by decide, by decide,
    h.1.2, h.2.2⟩

/-- Port "7" bookkeeping whose countdown window started at time 0 and was
detected recently. -/
def overmaxState : EventAlertState :=
  { is_set := false, last_alert_time := datetimeMin,
    last_detected_time := 99000, start_time := 0, event_interval := 1000,
    voice_port := "7", priority := 5 }

/-- A concrete manager with a 10-second max-duration cap holding port
"7". -/
def overmaxMgr : AlertManager :=
  { max_time_second := 10, pause_time_second := 0,
    alert_states := [("7", overmaxState)], next_alert := idleNext }

/-- C8 counterexample: for a port whose window start is older than
`max_duration_seconds`, `add_event` is not a no-op — the manager's state
changes (the port's priority, interval and detection time are refreshed
before the max-duration early return). -/
theorem add_event_overmax_claim_false :
    overmaxState.start_time + overmaxMgr.max_time_second * 1000 < 100000 ∧
    overmaxMgr.add_event 100000 "7" 3 1000 ≠ overmaxMgr := by
  constructor <;> decide

/-- C8 witness: the amended no-candidate behaviour evaluated on the
concrete over-max manager. -/
theorem add_event_overmax_witness :
    alookup overmaxMgr.alert_states "7" = some overmaxState ∧
    ¬ overmaxState.last_detected_time + (1000 + 2000) < 100000 ∧
    overmaxState.start_time + overmaxMgr.max_time_second * 1000 < 100000 ∧
    (overmaxMgr.add_event 100000 "7" 3 1000).next_alert =
      overmaxMgr.next_alert := by
  have h := add_event_overmax overmaxMgr 100000 "7" 3 1000 overmaxState
    (by decide) (by decide) (by decide)
  exact ⟨by decide, by decide, by decide, h.2⟩

/-! ### AEPEL speaker endpoint eviction (`AEPELSpeakerAlarm.stop`) -/

/-- Status of an `asyncio.Task` as far as `_remove_speaker_info` observes
it: still running, or already finished. -/
inductive TaskState
  | live
  | done_
deriving Repr, DecidableEq

/-- Observable actions of the speaker driver's cleanup path: task
cancellation, awaiting the cancelled task, dropping an endpoint's entries,
and (never emitted by `stop`) the playback HTTP request of
`_speaker_task`. -/
inductive SpeakerEvent
  | cancelTask (key : String)
  | awaitTask (key : String)
  | dropEntry (key : String)
  | deviceIO
deriving Repr, DecidableEq

/-- State of `AEPELSpeakerAlarm`: the three per-endpoint dicts `_managers`,
`_tasks` (a task slot may hold `None`) and `_running`. -/
structure AEPELSpeakerAlarm where
  managers : List (String × AlertManager)
  tasks : List (String × Option TaskState)
  running : List (String × Bool)
deriving Repr, DecidableEq

/-- Method `AEPELSpeakerAlarm._remove_speaker_info`: clear the running
flag, cancel and await the task when it exists and is not done, then pop
the endpoint from all three dicts. -/
def AEPELSpeakerAlarm.remove_speaker_info (s : AEPELSpeakerAlarm)
    (speaker_key : String) : AEPELSpeakerAlarm × List SpeakerEvent :=
  let s1 := { s with running := aset s.running speaker_key false }
  let cancels :=
    match alookup s1.tasks speaker_key with
    | some (some TaskState.live) =>
      [SpeakerEvent.cancelTask speaker_key, SpeakerEvent.awaitTask speaker_key]
    | _ => []
  ({ s1 with
     tasks := aerase s1.tasks speaker_key,
     running := aerase s1.running speaker_key,
     managers := aerase s1.managers speaker_key },
   cancels ++ [SpeakerEvent.dropEntry speaker_key])

/-- Method `AEPELSpeakerAlarm.stop`: when more than 16 endpoints are
tracked, evict every endpoint of the `keys_to_remove` snapshot; otherwise
do nothing.  No device I/O is performed either way. -/
def AEPELSpeakerAlarm.stop (s : AEPELSpeakerAlarm) (sensor : SensorInfo)
    (alarm : AlarmMessage) : AEPELSpeakerAlarm × List SpeakerEvent :=
  if s.tasks.length > 16 then
    (s.tasks.map Prod.fst).foldl
      (fun acc key =>
        let r := acc.1.remove_speaker_info key
        (r.1, acc.2 ++ r.2))
      (s, [])
  else (s, [])

/-- The cleanup trace of one tracked endpoint: cancel and await a live
task, then drop the entry. -/
def evictTrace (p : String × Option TaskState) : List SpeakerEvent :=
  (if p.2 = some TaskState.live then
    [SpeakerEvent.cancelTask p.1, SpeakerEvent.awaitTask p.1]
   else []) ++ [SpeakerEvent.dropEntry p.1]

/-- Erasing the key just written is erasing the key. -/
theorem aerase_aset {α : Type} (d : List (String × α)) (k : String) (v : α) :
    aerase (aset d k v) k = aerase d k := by
  induction d with
  | nil => simp [aset, aerase]
  | cons hd tl ih =>
    by_cases hk : hd.1 = k
    · simp [aset, aerase, hk]
    · simp [aset, aerase, hk, ih]

/-- Erasure only removes entries. -/
theorem mem_keys_aerase {α : Type} (d : List (String × α)) (k j : String)
    (h : j ∈ (aerase d k).map Prod.fst) : j ∈ d.map Prod.fst := by
  induction d with
  | nil => simpa [aerase] using h
  | cons hd tl ih =>
    by_cases hk : hd.1 = k
    · simp only [aerase, if_pos hk] at h
      simp [h]
    · simp only [aerase, if_neg hk, List.map_cons, List.mem_cons] at h ⊢
      rcases h with h | h
      · exact Or.inl h
      · exact Or.inr (ih h)

/-- With unique keys, the erased key is gone. -/
theorem not_mem_keys_aerase {α : Type} (d : List (String × α)) (k : String)
    (hnd : (d.map Prod.fst).Nodup) : k ∉ (aerase d k).map Prod.fst := by
  induction d with
  | nil => simp [aerase]
  | cons hd tl ih =>
    simp only [List.map_cons, List.nodup_cons] at hnd
    by_cases hk : hd.1 = k
    · simp only [aerase, if_pos hk]
      exact hk ▸ hnd.1
    · simp only [aerase, if_neg hk, List.map_cons, List.mem_cons]
      rintro (h | h)
      · exact hk h.symm
      · exact ih hnd.2 h

/-- Erasure preserves key uniqueness. -/
theorem nodup_keys_aerase {α : Type} (d : List (String × α)) (k : String)
    (hnd : (d.map Prod.fst).Nodup) : ((aerase d k).map Prod.fst).Nodup := by
  induction d with
  | nil => simp [aerase]
  | cons hd tl ih =>
    simp only [List.map_cons, List.nodup_cons] at hnd
    by_cases hk : hd.1 = k
    · simpa [aerase, hk] using hnd.2
    · simp only [aerase, if_neg hk, List.map_cons, List.nodup_cons]
      exact ⟨fun hc => hnd.1 (mem_keys_aerase tl k hd.1 hc), ih hnd.2⟩

/-- Folding `_remove_speaker_info` over the snapshot of tracked keys
empties all three dicts and emits each endpoint's cleanup trace in order. -/
theorem remove_all_fold :
    ∀ (l : List (String × Option TaskState)) (s : AEPELSpeakerAlarm)
      (eff0 : List SpeakerEvent),
      s.tasks = l →
      (l.map Prod.fst).Nodup →
      (s.running.map Prod.fst).Nodup →
      (s.managers.map Prod.fst).Nodup →
      (∀ k ∈ s.running.map Prod.fst, k ∈ l.map Prod.fst) →
      (∀ k ∈ s.managers.map Prod.fst, k ∈ l.map Prod.fst) →
      (l.map Prod.fst).foldl
        (fun acc key =>
          let r := acc.1.remove_speaker_info key
          (r.1, acc.2 ++ r.2))
        (s, eff0) =
      ({ managers := [], tasks := [], running := [] },
        eff0 ++ l.flatMap evictTrace) := by
  intro l
  induction l with
  | nil =>
    intro s eff0 htasks _ _ _ hrun hman
    have hrnil : s.running = [] := by
      cases hr : s.running with
      | nil => rfl
      | cons x xs =>
        exact absurd (hrun x.1 (by simp [hr])) (by simp [htasks])
    have hmnil : s.managers = [] := by
      cases hm : s.managers with
      | nil => rfl
      | cons x xs =>
        exact absurd (hman x.1 (by simp [hm])) (by simp [htasks])
    simp only [List.map_nil, List.foldl_nil, List.flatMap_nil, List.append_nil]
    cases s
    simp_all
  | cons hd tl ih =>
    intro s eff0 htasks hndT hndR hndM hrun hman
    obtain ⟨k, t⟩ := hd
    simp only [List.map_cons, List.foldl_cons]
    have hstep : s.remove_speaker_info k =
        ({ managers := aerase s.managers k,
           tasks := aerase s.tasks k,
           running := aerase s.running k },
         evictTrace (k, t)) := by
      have hlook : alookup s.tasks k = some t := by
        rw [htasks]; simp [alookup]
      unfold AEPELSpeakerAlarm.remove_speaker_info
      simp only [hlook, aerase_aset]
      cases t with
      | none => simp [evictTrace]
      | some ts => cases ts <;> simp [evictTrace]
    rw [hstep]
    simp only [List.map_cons, List.nodup_cons] at hndT
    have htasks' : aerase s.tasks k = tl := by
      rw [htasks]; simp [aerase]
    have hsub : ∀ {β : Type} (d : List (String × β)),
        (d.map Prod.fst).Nodup →
        (∀ j ∈ d.map Prod.fst, j ∈ k :: tl.map Prod.fst) →
        ∀ j ∈ (aerase d k).map Prod.fst, j ∈ tl.map Prod.fst := by
      intro β d hnd hd j hj
      have hj' := mem_keys_aerase d k j hj
      rcases List.mem_cons.mp (hd j hj') with h | h
      · exact absurd (h ▸ hj) (not_mem_keys_aerase d k hnd)
      · exact h
    have := ih
      { managers := aerase s.managers k,
        tasks := aerase s.tasks k,
        running := aerase s.running k }
      (eff0 ++ evictTrace (k, t))
      htasks' hndT.2
      (nodup_keys_aerase s.running k hndR)
      (nodup_keys_aerase s.managers k hndM)
      (hsub s.running hndR (fun j hj => by simpa [htasks] using hrun j hj))
      (hsub s.managers hndM (fun j hj => by simpa [htasks] using hman j hj))
    rw [this, List.flatMap_cons, List.append_assoc]

/-- C9: when more than 16 distinct endpoints are tracked (with the dicts
key-consistent as the driver maintains them), `stop` evicts every tracked
endpoint — the trace cancels and awaits each live task before dropping its
entry, in snapshot order — leaves all three dicts empty, and performs no
device I/O. -/
theorem speaker_stop_evicts (s : AEPELSpeakerAlarm) (sensor : SensorInfo)
    (alarm : AlarmMessage)
    (hn : s.tasks.length > 16)
    (hndT : (s.tasks.map Prod.fst).Nodup)
    (hndR : (s.running.map Prod.fst).Nodup)
    (hndM : (s.managers.map Prod.fst).Nodup)
    (hrun : ∀ k ∈ s.running.map Prod.fst, k ∈ s.tasks.map Prod.fst)
    (hman : ∀ k ∈ s.managers.map Prod.fst, k ∈ s.tasks.map Prod.fst) :
    (s.stop sensor alarm).1.tasks = [] ∧
    (s.stop sensor alarm).1.running = [] ∧
    (s.stop sensor alarm).1.managers = [] ∧
    (s.stop sensor alarm).2 = s.tasks.flatMap evictTrace ∧
    SpeakerEvent.deviceIO ∉ (s.stop sensor alarm).2 := by
  have hfold := remove_all_fold s.tasks s [] rfl hndT hndR hndM hrun hman
  have hstop : s.stop sensor alarm =
      ({ managers := [], tasks := [], running := [] },
        s.tasks.flatMap evictTrace) := by
    unfold AEPELSpeakerAlarm.stop
    rw [if_pos hn, hfold]
    simp
  refine ⟨by rw [hstop], by rw [hstop], by rw [hstop], by rw [hstop], ?_⟩
  rw [hstop]
  simp only [List.mem_flatMap, not_exists]
  rintro p ⟨_, hmem⟩
  unfold evictTrace at hmem
  rcases List.mem_append.mp hmem with h | h
  · split at h <;> simp_all
  · simp at h

/-- Seventeen distinct speaker endpoint keys. -/
def speakerKeys : List String :=
  ["k01", "k02", "k03", "k04", "k05", "k06", "k07", "k08", "k09", "k10",
   "k11", "k12", "k13", "k14", "k15", "k16", "k17"]

/-- An empty per-endpoint manager. -/
def emptyMgr : AlertManager :=
  { max_time_second := 120, pause_time_second := 2, alert_states := [],
    next_alert := idleNext }

/-- A speaker driver tracking 17 live endpoints. -/
def bigSpeaker : AEPELSpeakerAlarm :=
  { managers := speakerKeys.map (fun k => (k, emptyMgr)),
    tasks := speakerKeys.map (fun k => (k, some TaskState.live)),
    running := speakerKeys.map (fun k => (k, true)) }

/-- C9 witness: the eviction theorem evaluated on the 17-endpoint driver. -/
theorem speaker_stop_evicts_witness :
    bigSpeaker.tasks.length > 16 ∧
    (bigSpeaker.tasks.map Prod.fst).Nodup ∧
    (bigSpeaker.stop overnightSensor greenAlarm).1.tasks = [] ∧
    (bigSpeaker.stop overnightSensor greenAlarm).1.running = [] ∧
    (bigSpeaker.stop overnightSensor greenAlarm).1.managers = [] ∧
    (bigSpeaker.stop overnightSensor greenAlarm).2 =
      bigSpeaker.tasks.flatMap evictTrace ∧
    SpeakerEvent.deviceIO ∉ (bigSpeaker.stop overnightSensor greenAlarm).2 := by
  have h := speaker_stop_evicts bigSpeaker overnightSensor greenAlarm
    (by decide) (by decide) (by decide) (by decide) (by decide) (by decide)
  exact ⟨by decide, by decide, h.1, h.2.1, h.2.2.1, h.2.2.2.1, h.2.2.2.2⟩

/-! ### Inbound payload parsing (`AlarmMessage.from_dict`,
`AlarmMessage.list_from_payload`, `AlarmService._on_alarm_updated`) -/

/-- A decoded JSON value as `json.loads` produces it (numbers restricted to
the integers the alarm payloads carry). -/
inductive Json
  | null
  | bool (b : Bool)
  | num (n : Int)
  | str (s : String)
  | arr (items : List Json)
  | obj (fields : List (String × Json))

/-- Python truthiness of a decoded JSON value. -/
def Json.truthy : Json → Bool
  | .null => false
  | .bool b => b
  | .num n => n != 0
  | .str s => s != ""
  | .arr items => !items.isEmpty
  | .obj fields => !fields.isEmpty

/-- Python `data.get(key, dflt) or dflt`: the looked-up value when present
and truthy, the default otherwise. -/
def getOr (data : List (String × Json)) (key : String) (dflt : Json) : Json :=
  let v := (alookup data key).getD dflt
  if v.truthy then v else dflt

/-- Python `int(x)` on a decoded value; `Except.error` is the raised
`TypeError` or `ValueError`. -/
def pyInt : Json → Except String Int
  | .num n => .ok n
  | .bool b => .ok (if b then 1 else 0)
  | .str s =>
    match pyIntOfString s with
    | some n => .ok n
    | none => .error "ValueError: invalid literal for int()"
  | _ => .error "TypeError: int() argument must be a number or string"

/-- Python `str(x)` on a decoded value (the container forms, which no
claim exercises, get a placeholder text). -/
def pyStr : Json → String
  | .null => "None"
  | .bool b => if b then "True" else "False"
  | .num n => toString n
  | .str s => s
  | .arr _ => "<list>"
  | .obj _ => "<dict>"

/-- Pydantic validation of a `str` field: only a string is accepted. -/
def pyFieldStr : Json → Except String String
  | .str s => .ok s
  | _ => .error "ValidationError: str expected"

/-- Pydantic validation of the optional `int` field `onOff`: absent or null
gives `none`, an int stands, a numeric string coerces, anything else is
rejected. -/
def pyFieldOptInt : Option Json → Except String (Option Int)
  | none => .ok none
  | some .null => .ok none
  | some (.num n) => .ok (some n)
  | some (.str s) =>
    match pyIntOfString s with
    | some n => .ok (some n)
    | none => .error "ValidationError: int expected"
  | some _ => .error "ValidationError: int expected"

/-- Classmethod `AlarmMessage.from_dict`: the `int(...)` conversions run
while the constructor arguments are evaluated, in source order duration,
regenInterval, priority, and their exceptions escape; the remaining checks
model the pydantic validation that follows. -/
def AlarmMessage.from_dict (data : List (String × Json)) :
    Except String AlarmMessage := do
  let durv ← pyInt (getOr data "duration" (Json.num 1))
  let regenv ← pyInt (getOr data "regenInterval" (Json.num 0))
  let priov ← pyInt (getOr data "priority" (Json.num 0))
  let idv ← pyFieldStr (getOr data "id" (Json.str ""))
  let tidv ← pyFieldStr (getOr data "typeId" (Json.str ""))
  let atypv ← pyFieldStr (getOr data "alarmType" (Json.str ""))
  let onoffv ← pyFieldOptInt (alookup data "onOff")
  return { id := idv, type_id := tidv, alarm_type := atypv,
           alarm_value := pyStr (getOr data "alarmValue" (Json.str "")),
           duration := durv, regen_interval := regenv, priority := priov,
           on_off := onoffv }

/-- The list comprehension of `list_from_payload`: parse the dict elements
left to right, the first exception escaping. -/
def fromDictList : List (List (String × Json)) → Except String (List AlarmMessage)
  | [] => .ok []
  | d :: rest => do
    let a ← AlarmMessage.from_dict d
    let as ← fromDictList rest
    return a :: as

/-- Classmethod `AlarmMessage.list_from_payload`: a non-list payload gives
`[]`, non-dict elements are skipped, and `from_dict` exceptions escape. -/
def AlarmMessage.list_from_payload (payload : Json) :
    Except String (List AlarmMessage) :=
  match payload with
  | .arr items =>
    fromDictList (items.filterMap (fun j =>
      match j with
      | .obj fields => some fields
      | _ => none))
  | _ => .ok []

/-- Handler `AlarmService._on_alarm_updated`.  The argument is the outcome
of `json.loads` on the message bytes (`Except.error` when decoding
raised).  Only the decode step sits inside the handler's `try`; exceptions
from `list_from_payload` escape to the caller. -/
def onAlarmUpdated (svc : AlarmService) (raw : Except String Json) :
    Except String (AlarmService × List Effect) :=
  match raw with
  | .error _ =>
    .ok (svc, [Effect.logError "Failed to deserialize alarm.updated payload"])
  | .ok data =>
    match AlarmMessage.list_from_payload data with
    | .error e => .error e
    | .ok [] =>
      .ok (svc,
        [Effect.logWarning "alarm.updated received empty or invalid payload"])
    | .ok alarm_msgs => .ok (processBatch svc alarm_msgs)

/-- C5 counterexample: a well-formed JSON array whose element carries a
non-numeric `duration` does not get logged-and-dropped — the `int()`
conversion raises out of the handler, because `list_from_payload` runs
outside the handler's `try` block. -/
theorem malformed_field_raises_counterexample :
    onAlarmUpdated timerSvc
      (Except.ok (Json.arr [Json.obj [("duration", Json.str "abc")]])) =
      Except.error "ValueError: invalid literal for int()" := rfl

/-- C5 (amended): undecodable JSON and non-array payloads are logged and
dropped with the handler completing normally, but an array element whose
`duration` is a non-numeric, non-empty string raises an uncaught
`ValueError` out of the handler. -/
theorem malformed_input_amended (svc : AlarmService) (e : String) (j : Json)
    (s : String)
    (hnotarr : ∀ items, j ≠ Json.arr items)
    (hs1 : s ≠ "")
    (hs2 : pyIntOfString s = none) :
    onAlarmUpdated svc (Except.error e) =
      Except.ok (svc,
        [Effect.logError "Failed to deserialize alarm.updated payload"]) ∧
    onAlarmUpdated svc (Except.ok j) =
      Except.ok (svc,
        [Effect.logWarning "alarm.updated received empty or invalid payload"]) ∧
    onAlarmUpdated svc
      (Except.ok (Json.arr [Json.obj [("duration", Json.str s)]])) =
      Except.error "ValueError: invalid literal for int()" := by
  refine ⟨rfl, ?_, ?_⟩
  · cases j with
    | arr items => exact absurd rfl (hnotarr items)
    | null => rfl
    | bool b => rfl
    | num n => rfl
    | str s' => rfl
    | obj fields => rfl
  · have htruthy : (Json.str s).truthy = true := by
      simp [Json.truthy, hs1]
    have hget : getOr [("duration", Json.str s)] "duration" (Json.num 1) =
        Json.str s := by
      simp [getOr, alookup, htruthy]
    have hfd : AlarmMessage.from_dict [("duration", Json.str s)] =
        Except.error "ValueError: invalid literal for int()" := by
      unfold AlarmMessage.from_dict
      rw [hget]
      simp [pyInt, hs2, Bind.bind, Except.bind]
    unfold onAlarmUpdated AlarmMessage.list_from_payload
    simp only [List.filterMap_cons, List.filterMap_nil]
    unfold fromDictList
    rw [hfd]
    rfl

/-- C5 witness: the amended behaviour evaluated on the concrete service, a
numeric (non-array) payload and the literal "abc". -/
theorem malformed_input_amended_witness :
    ("abc" : String) ≠ "" ∧
    pyIntOfString "abc" = none ∧
    onAlarmUpdated timerSvc (Except.error "Expecting value") =
      Except.ok (timerSvc,
        [Effect.logError "Failed to deserialize alarm.updated payload"]) ∧
    onAlarmUpdated timerSvc (Except.ok (Json.num 3)) =
      Except.ok (timerSvc,
        [Effect.logWarning "alarm.updated received empty or invalid payload"]) := by
  have h := malformed_input_amended timerSvc "Expecting value" (Json.num 3)
    "abc" (fun items hc => Json.noConfusion hc) (by decide) rfl
  exact ⟨by decide, rfl, h.1, h.2.1⟩
